import Mathlib

/-!
Verification of the Adagio Visitor ID Lookup API (src/main.py) against its
natural-language specification. The Python source is shallowly embedded:
external effects (the secret-store read, the document-store query, the clock)
are passed in as explicit inputs, and the store operations a handler performs
are returned as an explicit trace so that read-only behaviour can be stated.
Python strings are modelled as Lean strings; slicing and prefix tests act on
the character list, matching the character-level semantics of Python string
operations.
-/

/-- Outcome of the two external reads that get_api_tokens performs
(access_secret_version followed by json.loads), together with the
environment variables the fallback path consults. A value of none for
secretResult covers every failure mode of the fetch: network error,
permission error, or JSON parse error — all land in the single except
branch of the source. -/
structure SecretEnv where
  secretResult : Option (List (String × String))
  apiToken1 : Option String
  apiToken2 : Option String
deriving Repr, DecidableEq

/-- Operations against the external stores. The service only ever emits the
two read operations; the write operations exist in the vocabulary so that
read-only behaviour is a fact about the code, not about the type. -/
inductive StoreOp where
  | readSecret : StoreOp
  | queryDocs : String → StoreOp
  | writeDoc : List (String × String) → StoreOp
  | deleteDoc : String → StoreOp
  | writeSecret : List (String × String) → StoreOp
deriving Repr, DecidableEq

/-- Whether a store operation is a pure read. -/
def StoreOp.isRead : StoreOp → Bool
  | .readSecret => true
  | .queryDocs _ => true
  | _ => false

/-- State of the two external stores, for stating frame conditions. -/
structure StoreState where
  secretData : List (String × String)
  collection : List (List (String × String))
deriving Repr, DecidableEq

/-- Effect of one store operation on the external state: reads leave it
unchanged, writes genuinely change it. -/
def applyOp (st : StoreState) : StoreOp → StoreState
  | .readSecret => st
  | .queryDocs _ => st
  | .writeDoc d => ⟨st.secretData, d :: st.collection⟩
  | .deleteDoc uid =>
      ⟨st.secretData,
       st.collection.filter (fun d => decide (¬ (d.find? (fun p => p.1 = "user_id")).map Prod.snd = some uid))⟩
  | .writeSecret kv => ⟨kv, st.collection⟩

/-- Folding a trace of operations over the store state. -/
def applyOps (st : StoreState) (ops : List StoreOp) : StoreState :=
  ops.foldl applyOp st

/-- Embedding of get_api_tokens (src/main.py lines 49-81): on a successful
fetch-and-parse, return the parsed mapping; on any failure, return the
two-entry fallback mapping built from the environment variables API_TOKEN_1
and API_TOKEN_2 with the hardcoded placeholder defaults. The trace records
the single secret-store read attempt. -/
def get_api_tokens (se : SecretEnv) : List (String × String) × List StoreOp :=
  match se.secretResult with
  | some api_tokens => (api_tokens, [StoreOp.readSecret])
  | none =>
      ([("adagio_token_1", se.apiToken1.getD "sk_test_YOUR_TEST_TOKEN_HERE"),
        ("adagio_token_2", se.apiToken2.getD "sk_live_YOUR_LIVE_TOKEN_HERE")],
       [StoreOp.readSecret])

set_option linter.unusedVariables false in
/-- Embedding of verify_api_key (src/main.py lines 83-113). The api_key
argument is the Authorization header value, none when the header is absent
(Python: if not api_key, covering both None and the empty string). The
hmacSha256 argument abstracts hmac.new(...).hexdigest(); the source binds
its result to expected_checksum and then returns True without consulting
it, which the embedding reproduces with a dead let binding. apiSecretKey
is the API_SECRET_KEY environment value. -/
def verify_api_key (hmacSha256 : String → String → String) (apiSecretKey : String)
    (se : SecretEnv) (api_key : Option String) : Bool × List StoreOp :=
  match api_key with
  | none => (false, [])
  | some s =>
    if s.data = [] then (false, [])
    else if ¬ ("Bearer ".data.isPrefixOf s.data) then (false, [])
    else
      let token := String.mk (s.data.drop 7)
      let fetched := get_api_tokens se
      if token ∉ fetched.1.map Prod.snd then (false, fetched.2)
      else
        let expected_checksum := hmacSha256 apiSecretKey token
        (true, fetched.2)

/-- A UTC datetime as produced by datetime.utcnow(): the components a Python
datetime object can hold. -/
structure UTCDateTime where
  year : Nat
  month : Nat
  day : Nat
  hour : Nat
  minute : Nat
  second : Nat
  microsecond : Nat
deriving Repr, DecidableEq

/-- The component ranges a Python datetime object enforces on construction
(year 1-9999, month 1-12, day 1-31, hour 0-23, minute 0-59, second 0-59,
microsecond 0-999999). datetime.utcnow() always returns a value in these
ranges. -/
def validTime (t : UTCDateTime) : Prop :=
  1 ≤ t.year ∧ t.year ≤ 9999 ∧ 1 ≤ t.month ∧ t.month ≤ 12 ∧
  1 ≤ t.day ∧ t.day ≤ 31 ∧ t.hour ≤ 23 ∧ t.minute ≤ 59 ∧
  t.second ≤ 59 ∧ t.microsecond ≤ 999999

instance (t : UTCDateTime) : Decidable (validTime t) := by
  unfold validTime
  infer_instance

/-- The decimal digit character for n mod 10. -/
def digitChar (n : Nat) : Char := Char.ofNat (48 + n % 10)

/-- Two-digit zero-padded decimal rendering, as Python str formatting
%02d produces for values below 100. -/
def pad2chars (n : Nat) : List Char := [digitChar (n / 10), digitChar n]

/-- Four-digit zero-padded decimal rendering, as %04d produces for values
below 10000. -/
def pad4chars (n : Nat) : List Char :=
  [digitChar (n / 1000), digitChar (n / 100), digitChar (n / 10), digitChar n]

/-- Six-digit zero-padded decimal rendering, as %06d produces for values
below 1000000. -/
def pad6chars (n : Nat) : List Char :=
  [digitChar (n / 100000), digitChar (n / 10000), digitChar (n / 1000),
   digitChar (n / 100), digitChar (n / 10), digitChar n]

/-- Embedding of datetime.isoformat() for components within the ranges a
datetime object enforces: YYYY-MM-DDTHH:MM:SS, with .ffffff appended
exactly when the microsecond component is nonzero. -/
def isoformat (t : UTCDateTime) : String :=
  String.mk (pad4chars t.year ++
    [Char.ofNat 45] ++ pad2chars t.month ++
    [Char.ofNat 45] ++ pad2chars t.day ++
    [Char.ofNat 84] ++ pad2chars t.hour ++
    [Char.ofNat 58] ++ pad2chars t.minute ++
    [Char.ofNat 58] ++ pad2chars t.second ++
    (if t.microsecond = 0 then [] else Char.ofNat 46 :: pad6chars t.microsecond))

/-- Checks an optional ISO-8601 fractional-seconds suffix: either nothing,
or a dot followed by exactly six digits. -/
def checkFrac (rest : List Char) : Bool :=
  match rest with
  | [] => true
  | p :: f => p == Char.ofNat 46 && f.length == 6 && f.all Char.isDigit

/-- Modelled from the spec: a well-formed ISO-8601 timestamp in the shape
the spec requires of found_at — a date, the letter T, a time, and an
optional six-digit fractional-seconds part (codepoints 45, 84, 58 and 46
are the hyphen, the letter T, the colon and the dot). -/
def isISO8601 (s : String) : Bool :=
  match s.data with
  | y1 :: y2 :: y3 :: y4 :: a :: mo1 :: mo2 :: b :: d1 :: d2 :: tt ::
    h1 :: h2 :: c :: mi1 :: mi2 :: e :: s1 :: s2 :: rest =>
      ([y1, y2, y3, y4, mo1, mo2, d1, d2, h1, h2, mi1, mi2, s1, s2].all Char.isDigit)
      && a == Char.ofNat 45 && b == Char.ofNat 45 && tt == Char.ofNat 84
      && c == Char.ofNat 58 && e == Char.ofNat 58
      && checkFrac rest
  | _ => false

/-- JSON values, as far as the response bodies of this service need them. -/
inductive Json where
  | str : String → Json
  | num : Nat → Json
  | obj : List (String × Json) → Json
  | arr : List Json → Json
deriving Repr

/-- An HTTP response: status code and JSON body. -/
structure HttpResponse where
  status : Nat
  body : Json
deriving Repr

/-- An incoming POST /lookup request: the optional Authorization header and
the decoded JSON body, modelled as string-valued fields. -/
structure HttpRequest where
  authorization : Option String
  body : List (String × String)
deriving Repr, DecidableEq

/-- Embedding of the pydantic model LookupRequest (src/main.py lines 29-30):
a single required string field user_id. -/
structure LookupRequest where
  user_id : String
deriving Repr, DecidableEq

/-- Modelled from the spec: the upstream model validation of the framework
variant — the request body yields a LookupRequest exactly when the required
user_id field is present; a body without it is rejected before the handler
runs (HTTP 422-equivalent validation error). -/
def parseLookupRequest (body : List (String × String)) : Option LookupRequest :=
  (body.find? (fun p => p.1 = "user_id")).map (fun p => ⟨p.2⟩)

/-- Field access on a Firestore document dictionary, as doc.to_dict().get
returns: the value of the first field with the given name, none when the
field is absent. -/
def docGet (d : List (String × String)) (k : String) : Option String :=
  (d.find? (fun p => p.1 = k)).map Prod.snd

/-- The Firestore query of src/main.py lines 163-176: an equality filter on
the user_id field limited to one result, iterated for its first document —
the first matching document in the natural order of the collection, none
when no document matches. -/
def queryFirst (collection : List (List (String × String))) (uid : String) :
    Option (List (String × String)) :=
  (collection.filter (fun d => docGet d "user_id" = some uid)).head?

/-- The structured error body the three registered exception handlers
produce (src/main.py lines 207-229). -/
def errorBody (name msg : String) (code : Nat) : Json :=
  Json.obj [("error", Json.str name), ("message", Json.str msg),
            ("status_code", Json.num code)]

/-- Dispatch of a raised HTTPException to the registered exception handlers
(src/main.py lines 207-229): the handlers for 404, 401 and 500 wrap the
detail in the structured error body; any other status falls through to the
framework default detail-shaped body (no other status is ever raised by
the source). -/
def exceptionHandler (code : Nat) (detail : String) : HttpResponse :=
  if code = 404 then ⟨404, errorBody "Not Found" detail 404⟩
  else if code = 401 then ⟨401, errorBody "Unauthorized" detail 401⟩
  else if code = 500 then ⟨500, errorBody "Internal Server Error" detail 500⟩
  else ⟨code, Json.obj [("detail", Json.str detail)]⟩

/-- Modelled from the spec: the validation-error response the framework
returns when the request body is missing the required user_id field — the
HTTP 422-equivalent rejection with the framework default detail-list body,
which is not the structured error body shape. -/
def validationErrorResponse : HttpResponse :=
  ⟨422, Json.obj [("detail", Json.arr [Json.obj
      [("type", Json.str "missing"),
       ("loc", Json.arr [Json.str "body", Json.str "user_id"]),
       ("msg", Json.str "Field required")]])]⟩

/-- Embedding of get_api_key (src/main.py lines 115-129): the dependency
that extracts and validates the Authorization header. An absent header, and
an empty one (Python: if not authorization), raise 401 with the message
about a required key; a header that verify_api_key rejects raises 401 with
the invalid-key message; otherwise the header value is returned. -/
def get_api_key (hmacSha256 : String → String → String) (apiSecretKey : String)
    (se : SecretEnv) (authorization : Option String) :
    Except String String × List StoreOp :=
  match authorization with
  | none => (Except.error "API key required in Authorization header", [])
  | some s =>
    if s.data = [] then
      (Except.error "API key required in Authorization header", [])
    else
      let verified := verify_api_key hmacSha256 apiSecretKey se (some s)
      if verified.1 then (Except.ok s, verified.2)
      else (Except.error "Invalid API key", verified.2)

/-- Embedding of lookup_visitor_id (src/main.py lines 141-205), after the
auth dependency and body validation have succeeded. storeFails models the
query raising an unexpected exception (store connectivity), which the
catch-all except maps to the internal 500; otherwise the first matching
document decides the outcome: no document gives the 404 with the user_id
embedded in the detail, an absent or empty visitor_id field (Python: if not
visitor_id) gives the 500 missing-field error, and a non-empty visitor_id
gives the 200 body with the echoed user_id and the isoformat timestamp of
the current UTC time. The trace records the single document query. -/
def lookup_visitor_id (collection : List (List (String × String)))
    (storeFails : Bool) (now : UTCDateTime) (uid : String) :
    HttpResponse × List StoreOp :=
  if storeFails then
    (exceptionHandler 500 "Internal server error during lookup", [StoreOp.queryDocs uid])
  else
    match queryFirst collection uid with
    | none =>
        (exceptionHandler 404 ("No visitor ID found for user_id: " ++ uid),
         [StoreOp.queryDocs uid])
    | some d =>
        match docGet d "visitor_id" with
        | none =>
            (exceptionHandler 500 "Visitor ID field missing in database record",
             [StoreOp.queryDocs uid])
        | some v =>
            if v.data = [] then
              (exceptionHandler 500 "Visitor ID field missing in database record",
               [StoreOp.queryDocs uid])
            else
              (⟨200, Json.obj [("visitor_id", Json.str v), ("user_id", Json.str uid),
                               ("found_at", Json.str (isoformat now))]⟩,
               [StoreOp.queryDocs uid])

/-- The full POST /lookup pipeline: the framework resolves the get_api_key
dependency first (a failure becomes the 401 response through the registered
handler), then validates the body against LookupRequest (a missing user_id
becomes the validation-error response), then runs the endpoint. The traces
of the dependency and of the endpoint are concatenated. -/
def post_lookup (hmacSha256 : String → String → String) (apiSecretKey : String)
    (se : SecretEnv) (collection : List (List (String × String)))
    (storeFails : Bool) (now : UTCDateTime) (req : HttpRequest) :
    HttpResponse × List StoreOp :=
  match get_api_key hmacSha256 apiSecretKey se req.authorization with
  | (Except.error msg, ops) => (exceptionHandler 401 msg, ops)
  | (Except.ok _, ops) =>
    match parseLookupRequest req.body with
    | none => (validationErrorResponse, ops)
    | some lreq =>
      let handled := lookup_visitor_id collection storeFails now lreq.user_id
      (handled.1, ops ++ handled.2)

/-- Embedding of the root route (src/main.py lines 131-134): a fixed 200
body, no auth, no store access. -/
def root_route : HttpResponse × List StoreOp :=
  (⟨200, Json.obj [("message", Json.str "Adagio Visitor ID Lookup API"),
                   ("status", Json.str "healthy")]⟩, [])

/-- Embedding of the health route (src/main.py lines 136-139): a fixed 200
status with the current timestamp, no auth, no store access. -/
def health_check (now : UTCDateTime) : HttpResponse × List StoreOp :=
  (⟨200, Json.obj [("status", Json.str "healthy"),
                   ("timestamp", Json.str (isoformat now))]⟩, [])

/-- Modelled from the spec: the error body shape the spec requires of error
responses — an object with exactly the fields error (a string), message (a
string) and status_code (a number equal to the HTTP status of the
response). -/
def isStructuredError (r : HttpResponse) : Bool :=
  match r.body with
  | Json.obj [(k1, Json.str _), (k2, Json.str _), (k3, Json.num c)] =>
      k1 == "error" && k2 == "message" && k3 == "status_code" && c == r.status
  | _ => false

/-! Helper lemmas shared by the claim theorems. -/

theorem isDigit_digitChar (n : Nat) : (digitChar n).isDigit = true := by
  rw [digitChar]
  have h : n % 10 < 10 := Nat.mod_lt _ (by norm_num)
  revert h
  generalize n % 10 = m
  intro h
  interval_cases m <;> decide

theorem isISO8601_isoformat (t : UTCDateTime) : isISO8601 (isoformat t) = true := by
  by_cases hm : t.microsecond = 0 <;>
    simp [isISO8601, isoformat, pad4chars, pad2chars, pad6chars, checkFrac, hm,
          isDigit_digitChar]

theorem get_api_tokens_ops (se : SecretEnv) :
    (get_api_tokens se).2 = [StoreOp.readSecret] := by
  unfold get_api_tokens
  cases h : se.secretResult <;> simp

theorem verify_api_key_true_iff (f : String → String → String) (k : String)
    (se : SecretEnv) (h : Option String) :
    (verify_api_key f k se h).1 = true ↔
      ∃ t, h = some ("Bearer " ++ t) ∧ t ∈ (get_api_tokens se).1.map Prod.snd := by
  constructor
  · intro hv
    cases h with
    | none => simp [verify_api_key] at hv
    | some s =>
      simp only [verify_api_key] at hv
      split at hv
      · simp at hv
      · split at hv
        · simp at hv
        · rename_i hne hpre
          rw [Decidable.not_not] at hpre
          obtain ⟨tl, htl⟩ := List.isPrefixOf_iff_prefix.mp hpre
          split at hv
          · simp at hv
          · rename_i hmem
            rw [Decidable.not_not] at hmem
            refine ⟨String.mk (s.data.drop 7), ?_, hmem⟩
            apply congrArg some
            apply String.ext
            rw [String.data_append, ← htl]
            have h7 : ("Bearer ".data).length = 7 := by decide
            show "Bearer ".data ++ _ = _
            rw [← h7, List.drop_left]
  · rintro ⟨t, rfl, hmem⟩
    simp only [verify_api_key]
    have hdata : ("Bearer " ++ t).data = "Bearer ".data ++ t.data :=
      String.data_append ..
    have hlist : "Bearer ".data = ['B', 'e', 'a', 'r', 'e', 'r', ' '] := rfl
    have hne : ¬ ("Bearer " ++ t).data = [] := by
      rw [hdata, hlist]
      simp
    rw [if_neg hne]
    have hpre : ("Bearer ".data.isPrefixOf ("Bearer " ++ t).data) = true := by
      rw [hdata]
      exact List.isPrefixOf_iff_prefix.mpr ⟨t.data, rfl⟩
    rw [if_neg (by simp [hpre])]
    have hdrop : String.mk (("Bearer " ++ t).data.drop 7) = t := by
      apply String.ext
      rw [hdata]
      have h7 : ("Bearer ".data).length = 7 := by decide
      rw [← h7, List.drop_left]
    rw [hdrop, if_neg (by simp [hmem])]

/-! Claim theorems. -/

/-- Claim C1 counterexample: with a fetched mapping whose values contain the
empty string, the header consisting of the bare prefix has an empty candidate
token and yet verify_api_key returns true, refuting the clause of the claim
that an empty candidate token is always rejected. -/
theorem verify_api_key_empty_token_cex :
    (verify_api_key (fun _ _ => "") "secret" ⟨some [("t1", "")], none, none⟩
      (some ("Bearer " ++ ""))).1 = true := by decide

/-- Claim C1 (amended): verify_api_key returns true exactly when the header
is the literal prefix Bearer-space followed by a candidate token that equals
one of the values of the fetched mapping; consequently it returns false when
the header is absent, when the header does not start with the prefix, and
when the candidate token is not among the values; an empty candidate token
is rejected whenever the empty string is not itself among the values of the
mapping. -/
theorem verify_api_key_correct (f : String → String → String) (k : String)
    (se : SecretEnv) (h : Option String) :
    ((verify_api_key f k se h).1 = true ↔
      ∃ t, h = some ("Bearer " ++ t) ∧ t ∈ (get_api_tokens se).1.map Prod.snd) ∧
    ((verify_api_key f k se none).1 = false) ∧
    (∀ s : String, ("Bearer ".data.isPrefixOf s.data) = false →
      (verify_api_key f k se (some s)).1 = false) ∧
    (∀ t : String, t ∉ (get_api_tokens se).1.map Prod.snd →
      (verify_api_key f k se (some ("Bearer " ++ t))).1 = false) ∧
    ("" ∉ (get_api_tokens se).1.map Prod.snd →
      (verify_api_key f k se (some "Bearer ")).1 = false) := by
  refine ⟨verify_api_key_true_iff f k se h, rfl, ?_, ?_, ?_⟩
  · intro s hpre
    cases hb : (verify_api_key f k se (some s)).1
    · rfl
    · exfalso
      obtain ⟨t, heq, hmem⟩ := (verify_api_key_true_iff f k se (some s)).mp hb
      obtain rfl : s = "Bearer " ++ t := Option.some_inj.mp heq
      have hyes : ("Bearer ".data.isPrefixOf ("Bearer " ++ t).data) = true := by
        rw [String.data_append]
        exact List.isPrefixOf_iff_prefix.mpr ⟨t.data, rfl⟩
      rw [hyes] at hpre
      simp at hpre
  · intro t hnm
    cases hb : (verify_api_key f k se (some ("Bearer " ++ t))).1
    · rfl
    · exfalso
      obtain ⟨u, heq, hmem⟩ :=
        (verify_api_key_true_iff f k se (some ("Bearer " ++ t))).mp hb
      have hdata : ("Bearer " ++ t).data = ("Bearer " ++ u).data :=
        congrArg String.data (Option.some_inj.mp heq)
      rw [String.data_append, String.data_append] at hdata
      have : t = u := String.ext (List.append_cancel_left hdata)
      exact hnm (this ▸ hmem)
  · intro hnm
    cases hb : (verify_api_key f k se (some "Bearer ")).1
    · rfl
    · exfalso
      obtain ⟨u, heq, hmem⟩ :=
        (verify_api_key_true_iff f k se (some "Bearer ")).mp hb
      have hdata : ("Bearer " : String).data = "Bearer ".data ++ u.data := by
        rw [← String.data_append]
        exact congrArg String.data (Option.some_inj.mp heq)
      have hlen := congrArg List.length hdata
      rw [List.length_append] at hlen
      have h7 : ("Bearer ".data).length = 7 := by decide
      rw [h7] at hlen
      have hu : u.data = [] := List.length_eq_zero.mp (by omega)
      have : u = "" := String.ext (by simp [hu])
      exact hnm (this ▸ hmem)

/-- Claim C1 witness: a concrete mapping and two concrete headers, one
accepted and one rejected, obtained from the amended theorem. -/
theorem verify_api_key_correct_witness :
    (verify_api_key (fun _ _ => "") "secret" ⟨some [("t1", "abc123")], none, none⟩
      (some ("Bearer " ++ "abc123"))).1 = true ∧
    (verify_api_key (fun _ _ => "") "secret" ⟨some [("t1", "abc123")], none, none⟩
      (some "wrong")).1 = false :=
  ⟨(verify_api_key_correct (fun _ _ => "") "secret"
      ⟨some [("t1", "abc123")], none, none⟩
      (some ("Bearer " ++ "abc123"))).1.mpr ⟨"abc123", rfl, by decide⟩,
   (verify_api_key_correct (fun _ _ => "") "secret"
      ⟨some [("t1", "abc123")], none, none⟩ none).2.2.1 "wrong" (by decide)⟩

/-- Claim C5: get_api_tokens never fails outward — every outcome of the
secret-store read yields some mapping; a successfully fetched and parsed
mapping is returned as is, and every failure yields exactly the two-entry
fallback mapping built from the environment variables API_TOKEN_1 and
API_TOKEN_2 with the hardcoded placeholder defaults. -/
theorem get_api_tokens_total (se : SecretEnv) :
    (∃ m, (get_api_tokens se).1 = m) ∧
    (∀ m, se.secretResult = some m → (get_api_tokens se).1 = m) ∧
    (se.secretResult = none →
      (get_api_tokens se).1 =
        [("adagio_token_1", se.apiToken1.getD "sk_test_YOUR_TEST_TOKEN_HERE"),
         ("adagio_token_2", se.apiToken2.getD "sk_live_YOUR_LIVE_TOKEN_HERE")]) := by
  refine ⟨⟨(get_api_tokens se).1, rfl⟩, ?_, ?_⟩
  · intro m hm
    simp [get_api_tokens, hm]
  · intro hm
    simp [get_api_tokens, hm]

/-- Claim C5 witness: with a failed fetch, one environment variable set and
one unset, the fallback mapping mixes the set value with the placeholder. -/
theorem get_api_tokens_total_witness :
    (get_api_tokens ⟨none, some "envtok1", none⟩).1 =
      [("adagio_token_1", "envtok1"),
       ("adagio_token_2", "sk_live_YOUR_LIVE_TOKEN_HERE")] := by
  have h := (get_api_tokens_total ⟨none, some "envtok1", none⟩).2.2 rfl
  simpa using h

/-- Claim C6: the boolean verify_api_key computes is decided before the HMAC
digest is taken and never consults it — for any two values of API_SECRET_KEY
and even any two digest functions, two runs on the same header and the same
fetched mapping return identical results. -/
theorem verify_api_key_secret_key_independent (f g : String → String → String)
    (k1 k2 : String) (se : SecretEnv) (h : Option String) :
    verify_api_key f k1 se h = verify_api_key g k2 se h := by
  cases h <;> rfl

/-- Claim C10: when the secret fetch fails and both environment variables
are unset, the hardcoded placeholder strings become the fallback values, and
verify_api_key accepts the two corresponding bearer headers whatever the
secret key and digest function are. -/
theorem fallback_placeholder_tokens (f : String → String → String) (k : String) :
    (get_api_tokens ⟨none, none, none⟩).1 =
      [("adagio_token_1", "sk_test_YOUR_TEST_TOKEN_HERE"),
       ("adagio_token_2", "sk_live_YOUR_LIVE_TOKEN_HERE")] ∧
    (verify_api_key f k ⟨none, none, none⟩
      (some "Bearer sk_test_YOUR_TEST_TOKEN_HERE")).1 = true ∧
    (verify_api_key f k ⟨none, none, none⟩
      (some "Bearer sk_live_YOUR_LIVE_TOKEN_HERE")).1 = true :=
  ⟨rfl, rfl, rfl⟩

theorem get_api_key_ok (f : String → String → String) (k : String)
    (se : SecretEnv) (auth : String)
    (hok : (verify_api_key f k se (some auth)).1 = true) :
    get_api_key f k se (some auth) =
      (Except.ok auth, (verify_api_key f k se (some auth)).2) := by
  have hne : ¬ auth.data = [] := by
    intro hnil
    have hempty : auth = "" := String.ext hnil
    rw [hempty] at hok
    simp [verify_api_key] at hok
  simp only [get_api_key]
  rw [if_neg hne]
  simp [hok]

theorem post_lookup_auth_ok (f : String → String → String) (k : String)
    (se : SecretEnv) (coll : List (List (String × String))) (sf : Bool)
    (now : UTCDateTime) (req : HttpRequest) (auth : String) (lreq : LookupRequest)
    (hauth : req.authorization = some auth)
    (hok : (verify_api_key f k se (some auth)).1 = true)
    (hbody : parseLookupRequest req.body = some lreq) :
    post_lookup f k se coll sf now req =
      ((lookup_visitor_id coll sf now lreq.user_id).1,
       (verify_api_key f k se (some auth)).2 ++
         (lookup_visitor_id coll sf now lreq.user_id).2) := by
  simp only [post_lookup, hauth, get_api_key_ok f k se auth hok, hbody]

set_option linter.unusedVariables false in
/-- Claim C2: an authorized POST lookup whose query returns a matching
document with a present, non-empty visitor_id field is answered with HTTP
200 and a body holding exactly that visitor_id, the echoed user_id, and the
isoformat of the current UTC time as found_at, which is a well-formed
ISO-8601 timestamp. -/
theorem lookup_found_200 (f : String → String → String) (k : String)
    (se : SecretEnv) (coll : List (List (String × String))) (now : UTCDateTime)
    (req : HttpRequest) (auth uid : String) (d : List (String × String))
    (v : String)
    (hvalid : validTime now)
    (hauth : req.authorization = some auth)
    (hok : (verify_api_key f k se (some auth)).1 = true)
    (hbody : parseLookupRequest req.body = some ⟨uid⟩)
    (hq : queryFirst coll uid = some d)
    (hv : docGet d "visitor_id" = some v)
    (hne : v ≠ "") :
    (post_lookup f k se coll false now req).1 =
      ⟨200, Json.obj [("visitor_id", Json.str v), ("user_id", Json.str uid),
                      ("found_at", Json.str (isoformat now))]⟩ ∧
    isISO8601 (isoformat now) = true := by
  refine ⟨?_, isISO8601_isoformat now⟩
  rw [post_lookup_auth_ok f k se coll false now req auth ⟨uid⟩ hauth hok hbody]
  have hnd : ¬ v.data = [] := fun hnil => hne (String.ext hnil)
  simp only [lookup_visitor_id, hq, hv]
  simp [hnd]

/-- Claim C2 witness: a concrete authorized request, one matching document
with a non-empty visitor_id, and the resulting 200 body. -/
theorem lookup_found_200_witness :
    (post_lookup (fun _ _ => "") "k" ⟨some [("t1", "abc123")], none, none⟩
      [[("user_id", "u1"), ("visitor_id", "v1")]] false ⟨2024, 3, 7, 1, 2, 3, 0⟩
      ⟨some "Bearer abc123", [("user_id", "u1")]⟩).1 =
      ⟨200, Json.obj [("visitor_id", Json.str "v1"), ("user_id", Json.str "u1"),
                      ("found_at", Json.str (isoformat ⟨2024, 3, 7, 1, 2, 3, 0⟩))]⟩ ∧
    isISO8601 (isoformat ⟨2024, 3, 7, 1, 2, 3, 0⟩) = true :=
  lookup_found_200 (fun _ _ => "") "k" ⟨some [("t1", "abc123")], none, none⟩
    [[("user_id", "u1"), ("visitor_id", "v1")]] ⟨2024, 3, 7, 1, 2, 3, 0⟩
    ⟨some "Bearer abc123", [("user_id", "u1")]⟩ "Bearer abc123" "u1"
    [("user_id", "u1"), ("visitor_id", "v1")] "v1"
    (by decide) rfl (by decide) (by decide) (by decide) (by decide) (by decide)

/-- Claim C3: an authorized POST lookup whose user_id matches no document is
answered with HTTP 404 through the registered handler, and the message of
the error body is the not-found detail with the input user_id appended, so
the message embeds the input identifier. -/
theorem lookup_not_found_404 (f : String → String → String) (k : String)
    (se : SecretEnv) (coll : List (List (String × String))) (now : UTCDateTime)
    (req : HttpRequest) (auth uid : String)
    (hauth : req.authorization = some auth)
    (hok : (verify_api_key f k se (some auth)).1 = true)
    (hbody : parseLookupRequest req.body = some ⟨uid⟩)
    (hq : queryFirst coll uid = none) :
    (post_lookup f k se coll false now req).1 =
      ⟨404, errorBody "Not Found" ("No visitor ID found for user_id: " ++ uid) 404⟩ ∧
    (∃ pre, "No visitor ID found for user_id: " ++ uid = pre ++ uid) := by
  refine ⟨?_, ⟨"No visitor ID found for user_id: ", rfl⟩⟩
  rw [post_lookup_auth_ok f k se coll false now req auth ⟨uid⟩ hauth hok hbody]
  simp only [lookup_visitor_id, hq]
  simp [exceptionHandler]

/-- Claim C3 witness: a concrete authorized request for an absent user_id
and the resulting 404 error body. -/
theorem lookup_not_found_404_witness :
    (post_lookup (fun _ _ => "") "k" ⟨some [("t1", "abc123")], none, none⟩
      [[("user_id", "u1"), ("visitor_id", "v1")]] false ⟨2024, 3, 7, 1, 2, 3, 0⟩
      ⟨some "Bearer abc123", [("user_id", "u2")]⟩).1 =
      ⟨404, errorBody "Not Found" ("No visitor ID found for user_id: " ++ "u2") 404⟩ ∧
    (∃ pre, "No visitor ID found for user_id: " ++ "u2" = pre ++ "u2") :=
  lookup_not_found_404 (fun _ _ => "") "k" ⟨some [("t1", "abc123")], none, none⟩
    [[("user_id", "u1"), ("visitor_id", "v1")]] ⟨2024, 3, 7, 1, 2, 3, 0⟩
    ⟨some "Bearer abc123", [("user_id", "u2")]⟩ "Bearer abc123" "u2"
    rfl (by decide) (by decide) (by decide)

/-- Claim C4: an authorized POST lookup whose user_id matches a document in
which the visitor_id field is absent or empty is answered with the 500
missing-field error through the registered handler — not 200 and not 404. -/
theorem lookup_missing_field_500 (f : String → String → String) (k : String)
    (se : SecretEnv) (coll : List (List (String × String))) (now : UTCDateTime)
    (req : HttpRequest) (auth uid : String) (d : List (String × String))
    (hauth : req.authorization = some auth)
    (hok : (verify_api_key f k se (some auth)).1 = true)
    (hbody : parseLookupRequest req.body = some ⟨uid⟩)
    (hq : queryFirst coll uid = some d)
    (hv : docGet d "visitor_id" = none ∨ docGet d "visitor_id" = some "") :
    (post_lookup f k se coll false now req).1 =
      ⟨500, errorBody "Internal Server Error"
        "Visitor ID field missing in database record" 500⟩ ∧
    (post_lookup f k se coll false now req).1.status = 500 ∧
    (post_lookup f k se coll false now req).1.status ≠ 200 ∧
    (post_lookup f k se coll false now req).1.status ≠ 404 := by
  have hmain : (post_lookup f k se coll false now req).1 =
      ⟨500, errorBody "Internal Server Error"
        "Visitor ID field missing in database record" 500⟩ := by
    rw [post_lookup_auth_ok f k se coll false now req auth ⟨uid⟩ hauth hok hbody]
    rcases hv with hv | hv
    · simp only [lookup_visitor_id, hq, hv]
      simp [exceptionHandler]
    · simp only [lookup_visitor_id, hq, hv]
      simp [exceptionHandler]
  refine ⟨hmain, ?_, ?_, ?_⟩ <;> rw [hmain] <;> decide

/-- Claim C4 witness: a concrete authorized request whose matching document
has an empty visitor_id, and the resulting 500 error. -/
theorem lookup_missing_field_500_witness :
    (post_lookup (fun _ _ => "") "k" ⟨some [("t1", "abc123")], none, none⟩
      [[("user_id", "u1"), ("visitor_id", "")]] false ⟨2024, 3, 7, 1, 2, 3, 0⟩
      ⟨some "Bearer abc123", [("user_id", "u1")]⟩).1 =
      ⟨500, errorBody "Internal Server Error"
        "Visitor ID field missing in database record" 500⟩ ∧
    (post_lookup (fun _ _ => "") "k" ⟨some [("t1", "abc123")], none, none⟩
      [[("user_id", "u1"), ("visitor_id", "")]] false ⟨2024, 3, 7, 1, 2, 3, 0⟩
      ⟨some "Bearer abc123", [("user_id", "u1")]⟩).1.status = 500 ∧
    (post_lookup (fun _ _ => "") "k" ⟨some [("t1", "abc123")], none, none⟩
      [[("user_id", "u1"), ("visitor_id", "")]] false ⟨2024, 3, 7, 1, 2, 3, 0⟩
      ⟨some "Bearer abc123", [("user_id", "u1")]⟩).1.status ≠ 200 ∧
    (post_lookup (fun _ _ => "") "k" ⟨some [("t1", "abc123")], none, none⟩
      [[("user_id", "u1"), ("visitor_id", "")]] false ⟨2024, 3, 7, 1, 2, 3, 0⟩
      ⟨some "Bearer abc123", [("user_id", "u1")]⟩).1.status ≠ 404 :=
  lookup_missing_field_500 (fun _ _ => "") "k" ⟨some [("t1", "abc123")], none, none⟩
    [[("user_id", "u1"), ("visitor_id", "")]] ⟨2024, 3, 7, 1, 2, 3, 0⟩
    ⟨some "Bearer abc123", [("user_id", "u1")]⟩ "Bearer abc123" "u1"
    [("user_id", "u1"), ("visitor_id", "")]
    rfl (by decide) (by decide) (by decide) (Or.inr (by decide))

theorem verify_api_key_ops (f : String → String → String) (k : String)
    (se : SecretEnv) (h : Option String) :
    (verify_api_key f k se h).2 = [] ∨
    (verify_api_key f k se h).2 = [StoreOp.readSecret] := by
  cases h with
  | none => exact Or.inl rfl
  | some s =>
    simp only [verify_api_key]
    split
    · exact Or.inl rfl
    · split
      · exact Or.inl rfl
      · split
        · exact Or.inr (get_api_tokens_ops se)
        · exact Or.inr (get_api_tokens_ops se)

theorem get_api_key_ops (f : String → String → String) (k : String)
    (se : SecretEnv) (h : Option String) :
    (get_api_key f k se h).2 = [] ∨
    (get_api_key f k se h).2 = [StoreOp.readSecret] := by
  cases h with
  | none => exact Or.inl rfl
  | some s =>
    simp only [get_api_key]
    split
    · exact Or.inl rfl
    · split
      · exact verify_api_key_ops f k se (some s)
      · exact verify_api_key_ops f k se (some s)

theorem lookup_visitor_id_ops (coll : List (List (String × String)))
    (sf : Bool) (now : UTCDateTime) (uid : String) :
    (lookup_visitor_id coll sf now uid).2 = [StoreOp.queryDocs uid] := by
  simp only [lookup_visitor_id]
  split
  · rfl
  · split
    · rfl
    · split
      · rfl
      · split
        · rfl
        · rfl

theorem post_lookup_ops_read (f : String → String → String) (k : String)
    (se : SecretEnv) (coll : List (List (String × String))) (sf : Bool)
    (now : UTCDateTime) (req : HttpRequest) :
    ∀ op ∈ (post_lookup f k se coll sf now req).2, op.isRead = true := by
  intro op hop
  have hdep := get_api_key_ops f k se req.authorization
  rcases hg : get_api_key f k se req.authorization with ⟨res, ops⟩
  rw [hg] at hdep
  simp only at hdep
  have hops : ∀ o ∈ ops, StoreOp.isRead o = true := by
    intro o ho
    rcases hdep with hd | hd
    · subst hd
      simp at ho
    · subst hd
      simp at ho
      rw [ho]
      rfl
  cases res with
  | error msg =>
    simp only [post_lookup, hg] at hop
    exact hops op hop
  | ok s =>
    simp only [post_lookup, hg] at hop
    cases hp : parseLookupRequest req.body with
    | none =>
      rw [hp] at hop
      simp only at hop
      exact hops op hop
    | some lreq =>
      rw [hp] at hop
      simp only [lookup_visitor_id_ops] at hop
      simp [List.mem_append] at hop
      rcases hop with hop | hop
      · exact hops op hop
      · rw [hop]
        rfl

theorem applyOps_of_reads (st : StoreState) (ops : List StoreOp)
    (h : ∀ op ∈ ops, op.isRead = true) : applyOps st ops = st := by
  induction ops generalizing st with
  | nil => rfl
  | cons op rest ih =>
    have hop := h op (List.mem_cons_self op rest)
    have hst : applyOp st op = st := by
      cases op <;> first
        | rfl
        | (exfalso; simp [StoreOp.isRead] at hop)
    show List.foldl applyOp st (op :: rest) = st
    rw [List.foldl_cons, hst]
    exact ih st (fun o ho => h o (List.mem_cons_of_mem op ho))

/-- Claim C7: a POST lookup request whose body lacks the user_id field is
answered with a client error — 401 when the authorization dependency already
rejects the request, otherwise the 422 upstream validation rejection — never
a server error, and the handler body is not reached: the document store is
never queried. -/
theorem missing_user_id_client_error (f : String → String → String) (k : String)
    (se : SecretEnv) (coll : List (List (String × String))) (sf : Bool)
    (now : UTCDateTime) (req : HttpRequest)
    (hmiss : parseLookupRequest req.body = none) :
    ((post_lookup f k se coll sf now req).1.status = 401 ∨
     (post_lookup f k se coll sf now req).1.status = 422) ∧
    400 ≤ (post_lookup f k se coll sf now req).1.status ∧
    (post_lookup f k se coll sf now req).1.status < 500 ∧
    (∀ uid, StoreOp.queryDocs uid ∉ (post_lookup f k se coll sf now req).2) := by
  have hdep := get_api_key_ops f k se req.authorization
  rcases hg : get_api_key f k se req.authorization with ⟨res, ops⟩
  rw [hg] at hdep
  simp only at hdep
  have hnq : ∀ uid, StoreOp.queryDocs uid ∉ ops := by
    intro uid hin
    rcases hdep with hd | hd <;> subst hd <;> simp at hin
  cases res with
  | error msg =>
    have he : post_lookup f k se coll sf now req = (exceptionHandler 401 msg, ops) := by
      simp only [post_lookup, hg]
    rw [he]
    have h401 : (exceptionHandler 401 msg).status = 401 := rfl
    refine ⟨Or.inl h401, ?_, ?_, hnq⟩ <;> rw [h401] <;> norm_num
  | ok s =>
    have he : post_lookup f k se coll sf now req = (validationErrorResponse, ops) := by
      simp only [post_lookup, hg, hmiss]
    rw [he]
    exact ⟨Or.inr rfl, by norm_num [validationErrorResponse], by
      norm_num [validationErrorResponse], hnq⟩

/-- Claim C7 witness: an authorized concrete request with an empty body is
answered 422 and the document store is untouched. -/
theorem missing_user_id_client_error_witness :
    ((post_lookup (fun _ _ => "") "k" ⟨some [("t1", "abc123")], none, none⟩ []
        false ⟨2024, 3, 7, 1, 2, 3, 0⟩ ⟨some "Bearer abc123", []⟩).1.status = 401 ∨
     (post_lookup (fun _ _ => "") "k" ⟨some [("t1", "abc123")], none, none⟩ []
        false ⟨2024, 3, 7, 1, 2, 3, 0⟩ ⟨some "Bearer abc123", []⟩).1.status = 422) ∧
    400 ≤ (post_lookup (fun _ _ => "") "k" ⟨some [("t1", "abc123")], none, none⟩ []
        false ⟨2024, 3, 7, 1, 2, 3, 0⟩ ⟨some "Bearer abc123", []⟩).1.status ∧
    (post_lookup (fun _ _ => "") "k" ⟨some [("t1", "abc123")], none, none⟩ []
        false ⟨2024, 3, 7, 1, 2, 3, 0⟩ ⟨some "Bearer abc123", []⟩).1.status < 500 ∧
    (∀ uid, StoreOp.queryDocs uid ∉
      (post_lookup (fun _ _ => "") "k" ⟨some [("t1", "abc123")], none, none⟩ []
        false ⟨2024, 3, 7, 1, 2, 3, 0⟩ ⟨some "Bearer abc123", []⟩).2) :=
  missing_user_id_client_error (fun _ _ => "") "k"
    ⟨some [("t1", "abc123")], none, none⟩ [] false ⟨2024, 3, 7, 1, 2, 3, 0⟩
    ⟨some "Bearer abc123", []⟩ rfl

theorem post_lookup_cases (f : String → String → String) (k : String)
    (se : SecretEnv) (coll : List (List (String × String))) (sf : Bool)
    (now : UTCDateTime) (req : HttpRequest) :
    (∃ msg, (post_lookup f k se coll sf now req).1 = exceptionHandler 401 msg) ∨
    (post_lookup f k se coll sf now req).1 = validationErrorResponse ∨
    (∃ d, (post_lookup f k se coll sf now req).1 = exceptionHandler 404 d) ∨
    (∃ d, (post_lookup f k se coll sf now req).1 = exceptionHandler 500 d) ∨
    (post_lookup f k se coll sf now req).1.status = 200 := by
  rcases hg : get_api_key f k se req.authorization with ⟨res, ops⟩
  cases res with
  | error msg =>
    exact Or.inl ⟨msg, by simp only [post_lookup, hg]⟩
  | ok s =>
    cases hp : parseLookupRequest req.body with
    | none =>
      exact Or.inr (Or.inl (by simp only [post_lookup, hg, hp]))
    | some lreq =>
      have he : (post_lookup f k se coll sf now req).1 =
          (lookup_visitor_id coll sf now lreq.user_id).1 := by
        simp only [post_lookup, hg, hp]
      rw [he]
      simp only [lookup_visitor_id]
      split
      · exact Or.inr (Or.inr (Or.inr (Or.inl ⟨_, rfl⟩)))
      · split
        · exact Or.inr (Or.inr (Or.inl ⟨_, rfl⟩))
        · split
          · exact Or.inr (Or.inr (Or.inr (Or.inl ⟨_, rfl⟩)))
          · split
            · exact Or.inr (Or.inr (Or.inr (Or.inl ⟨_, rfl⟩)))
            · exact Or.inr (Or.inr (Or.inr (Or.inr rfl)))

/-- Claim C8 counterexample: an authorized request whose body lacks user_id
receives the 422 validation response, whose body is the framework default
detail shape rather than the structured error body with error, message and
status_code fields, so not every error response the service can emit has the
claimed shape. -/
theorem error_shape_cex :
    (post_lookup (fun _ _ => "") "k" ⟨some [("t1", "abc123")], none, none⟩ []
      false ⟨2024, 3, 7, 1, 2, 3, 0⟩ ⟨some "Bearer abc123", []⟩).1.status = 422 ∧
    isStructuredError
      (post_lookup (fun _ _ => "") "k" ⟨some [("t1", "abc123")], none, none⟩ []
        false ⟨2024, 3, 7, 1, 2, 3, 0⟩ ⟨some "Bearer abc123", []⟩).1 = false :=
  ⟨rfl, rfl⟩

/-- Claim C8 (amended): every error response produced through the registered
exception handlers — that is, every response of the service other than a 200
success and the 422 upstream validation rejection — has the structured error
body with fields error, message and status_code, with status_code equal to
the HTTP status of the response; the root and health routes always answer
200 and never produce an error. -/
theorem error_responses_structured (f : String → String → String) (k : String)
    (se : SecretEnv) (coll : List (List (String × String))) (sf : Bool)
    (now : UTCDateTime) (req : HttpRequest) :
    ((post_lookup f k se coll sf now req).1.status ≠ 200 →
     (post_lookup f k se coll sf now req).1.status ≠ 422 →
     isStructuredError (post_lookup f k se coll sf now req).1 = true) ∧
    root_route.1.status = 200 ∧ (health_check now).1.status = 200 := by
  refine ⟨?_, rfl, rfl⟩
  intro h200 h422
  rcases post_lookup_cases f k se coll sf now req with
    ⟨msg, he⟩ | he | ⟨d, he⟩ | ⟨d, he⟩ | he
  · rw [he]
    rfl
  · rw [he] at h422
    exact absurd rfl h422
  · rw [he]
    rfl
  · rw [he]
    rfl
  · exact absurd he h200

/-- Claim C8 witness: an authorized request against an empty collection gets
the 404 error, whose body carries the structured shape. -/
theorem error_responses_structured_witness :
    isStructuredError (post_lookup (fun _ _ => "") "k"
      ⟨some [("t1", "abc123")], none, none⟩ [] false ⟨2024, 3, 7, 1, 2, 3, 0⟩
      ⟨some "Bearer abc123", [("user_id", "u1")]⟩).1 = true :=
  (error_responses_structured (fun _ _ => "") "k"
    ⟨some [("t1", "abc123")], none, none⟩ [] false ⟨2024, 3, 7, 1, 2, 3, 0⟩
    ⟨some "Bearer abc123", [("user_id", "u1")]⟩).1 (by decide) (by decide)

/-- Claim C9: no request creates, updates or deletes anything in the external
stores: every store operation any of the three routes emits is a read,
folding the emitted trace over any store state leaves the state unchanged,
and the root and health routes emit no store operation at all. -/
theorem service_read_only (f : String → String → String) (k : String)
    (se : SecretEnv) (coll : List (List (String × String))) (sf : Bool)
    (now : UTCDateTime) (req : HttpRequest) (st : StoreState) :
    (post_lookup f k se coll sf now req).2.all StoreOp.isRead = true ∧
    applyOps st (post_lookup f k se coll sf now req).2 = st ∧
    root_route.2 = [] ∧ (health_check now).2 = [] := by
  refine ⟨?_, applyOps_of_reads st _ (post_lookup_ops_read f k se coll sf now req),
    rfl, rfl⟩
  rw [List.all_eq_true]
  exact post_lookup_ops_read f k se coll sf now req
